import Mathlib

/-!
Verification of the logzilla library (src/logzilla/logzilla.py), a thin
wrapper around the standard logging facility.  The Python source is embedded
shallowly: pure string computations become Lean functions, the process-wide
initialized flag and the filesystem side effects of init_root_logger become
explicit values threaded in and out, and raising an exception becomes an
Except error value.  Machine-independent abstractions: wall-clock instants
are whole seconds (Nat), and file-system outcomes (directory existence,
mkdir success, file-open success) are explicit booleans.
-/

/-! ## Generic string helpers used by the embedding -/

/-- Does the first list occur as a prefix of the second list of characters? -/
def strStarts : List Char → List Char → Bool
  | [], _ => true
  | _ :: _, [] => false
  | a :: as, b :: bs => a == b && strStarts as bs

/-- Index of the first occurrence of pat in a character list, if any. -/
def substrPosAux (pat : List Char) : List Char → Option Nat
  | [] => if pat.isEmpty then some 0 else none
  | c :: t => if strStarts pat (c :: t) then some 0 else (substrPosAux pat t).map Nat.succ

/-- Index of the first occurrence of pat inside s, if any. -/
def substrPos (s pat : String) : Option Nat := substrPosAux pat.data s.data

/-- Does pat occur somewhere inside s? -/
def containsSubstr (s pat : String) : Bool := (substrPos s pat).isSome

/-- A string made of n copies of one character. -/
def repeatChar (c : Char) (n : Nat) : String := String.mk (List.replicate n c)

/-- Zero-pad a number below 100 to two digits, as the %m, %d, %H, %M, %S
strftime directives do. -/
def pad2 (n : Nat) : String := if n < 10 then "0" ++ toString n else toString n

/-- The center method of Python str, as implemented by CPython: if the string
already fills the width it is returned unchanged; otherwise the margin is
split with the left share being marg / 2 plus one extra character exactly when
both the margin and the width are odd (CPython computes marg AND width AND 1
bitwise, which equals this parity test). -/
def py_center (s : String) (width : Nat) (fill : Char) : String :=
  if width ≤ s.length then s
  else
    let marg := width - s.length
    let left := marg / 2 + (if marg % 2 = 1 ∧ width % 2 = 1 then 1 else 0)
    repeatChar fill left ++ s ++ repeatChar fill (marg - left)

/-- Rendering of a Python timedelta of a whole number of seconds by str:
hours, then zero-padded minutes and seconds, with a day count prefix when the
duration reaches one day.  The source converts the elapsed float to a
timedelta and interpolates its str form; the embedding measures time in whole
seconds. -/
def timedelta_str (secs : Nat) : String :=
  let days := secs / 86400
  let rem := secs % 86400
  let core := toString (rem / 3600) ++ ":" ++ pad2 (rem % 3600 / 60) ++ ":" ++ pad2 (rem % 60)
  if days = 0 then core
  else if days = 1 then "1 day, " ++ core
  else toString days ++ " days, " ++ core

/-! ## Severity levels of the standard logging module -/

namespace logging

def DEBUG : Nat := 10
def INFO : Nat := 20
def WARNING : Nat := 30
def ERROR : Nat := 40
def CRITICAL : Nat := 50

end logging

/-! ## Data model of the embedding -/

/-- A Python exception, as a result value. -/
inductive PyError where
  | runtimeError (msg : String)
  | oserror (msg : String)
deriving DecidableEq

/-- A calendar timestamp with one-second granularity, standing for the value
of datetime.now() at the moment init_root_logger runs. -/
structure DateTime where
  year : Nat
  month : Nat
  day : Nat
  hour : Nat
  minute : Nat
  second : Nat
deriving DecidableEq

/-- The outcome the file system would give to the calls init_root_logger
makes: whether the log directory already exists, whether creating it would
succeed, and whether opening the log file would succeed. -/
structure FsState where
  dir_exists : Bool
  mkdir_ok : Bool
  open_ok : Bool
deriving DecidableEq

/-- A file-system side effect performed by init_root_logger, in order. -/
inductive FsEffect where
  | mkdir (path : String)
  | openFile (path : String) (mode : String) (encoding : String)
deriving DecidableEq

/-- A formatter attached to a handler: either a plain logging.Formatter or
the colorizing CustomFormatter, each holding a format template and a date
format. -/
inductive Formatter where
  | plain (fmt : String) (datefmt : String)
  | custom (fmt : String) (datefmt : String)
deriving DecidableEq

/-- The base format template a formatter holds. -/
def Formatter.fmt : Formatter → String
  | .plain f _ => f
  | .custom f _ => f

/-- The root-logger configuration produced by a successful
init_root_logger call: the logger level, the two handler levels, the two
formatters, and the path of the opened log file. -/
structure RootLoggerConfig where
  logger_level : Nat
  file_handler_level : Nat
  console_handler_level : Nat
  file_formatter : Formatter
  console_formatter : Formatter
  log_file_path : String
deriving DecidableEq

/-- One record sent to the logging facility: a severity and a message. -/
structure LogRecord where
  levelno : Nat
  msg : String
deriving DecidableEq

/-! ## CustomFormatter: the colorizing formatter -/

namespace CustomFormatter

def white : String := "\x1b[37;20m"
def green : String := "\x1b[32;20m"
def blue : String := "\x1b[34;20m"
def cyan : String := "\x1b[36;20m"
def yellow : String := "\x1b[33;20m"
def red : String := "\x1b[31;20m"
def bold_red : String := "\x1b[31;1m"
def reset : String := "\x1b[0m"

/-- The FORMATS dictionary built by the constructor of CustomFormatter from
the base template fmt: each known severity maps to the template wrapped in
the ANSI code of that severity with a trailing reset; any other severity is
absent from the dictionary. -/
def FORMATS (fmt : String) : Nat → Option String
  | 10 => some (cyan ++ fmt ++ reset)
  | 20 => some (green ++ fmt ++ reset)
  | 30 => some (yellow ++ fmt ++ reset)
  | 40 => some (red ++ fmt ++ reset)
  | 50 => some (bold_red ++ fmt ++ reset)
  | _ => none

end CustomFormatter

/-! ## LogZilla: class constants and class methods -/

namespace LogZilla

def log_folder_name : String := ".log"
def date_format : String := "%Y/%m/%d %H:%M:%S"
def default_prepend_info : String :=
  "%(asctime)s: %(filename)s:%(lineno)s: %(levelname)s: %(message)s"
def simple_prepend_info : String := "%(asctime)s: %(levelname)s: %(message)s"

/-- The message of the RuntimeError raised by the constructor of LogZilla. -/
def instantiate_msg : String :=
  "Do not instantiate LogZilla it is a singleton. You must use its class/static methods"

/-- The constructor of LogZilla: every attempt to build an instance raises a
RuntimeError, so no instance value (Empty) is ever produced. -/
def instantiate (_ : Unit) : Except PyError Empty :=
  Except.error (PyError.runtimeError instantiate_msg)

/-- The parameters of init_root_logger.  caller_stem stands for the stem of
the file of the caller, which the source reads from the call stack and uses
when log_file_name_append is empty. -/
structure InitParams where
  output_dir : String
  log_file_name_append : String
  caller_stem : String
  min_level : Nat
  console_level : Nat
  file_level : Nat
  console_color_on : Bool
  file_color_on : Bool
  no_console_file_info : Bool
deriving DecidableEq

/-- The suffix actually appended to the log file name: the explicit
log_file_name_append when nonempty, else the stem of the calling file. -/
def effective_append (p : InitParams) : String :=
  if p.log_file_name_append = "" then p.caller_stem else p.log_file_name_append

/-- The file name produced by strftime with the pattern
%Y.%m.%d_%H.%M.%S_<append>.log at the given instant. -/
def strftime_file_name (t : DateTime) (append : String) : String :=
  toString t.year ++ "." ++ pad2 t.month ++ "." ++ pad2 t.day ++ "_" ++
    pad2 t.hour ++ "." ++ pad2 t.minute ++ "." ++ pad2 t.second ++ "_" ++ append ++ ".log"

/-- The log directory: output_dir joined with the .log folder name.  The
source also makes this path absolute; path absolutization depends on the
working directory and is left out of the embedding. -/
def log_file_dir_of (p : InitParams) : String :=
  p.output_dir ++ "/" ++ log_folder_name

/-- The full path of the log file opened by init_root_logger. -/
def log_file_path_of (now : DateTime) (p : InitParams) : String :=
  log_file_dir_of p ++ "/" ++ strftime_file_name now (effective_append p)

/-- The console template: the simple one without source location when
no_console_file_info is set, else the verbose default. -/
def console_log_format (p : InitParams) : String :=
  if p.no_console_file_info then simple_prepend_info else default_prepend_info

/-- The directory-creation effects of init_root_logger: mkdir is called
exactly when the log directory does not already exist. -/
def dir_effects (fs : FsState) (p : InitParams) : List FsEffect :=
  if fs.dir_exists then [] else [FsEffect.mkdir (log_file_dir_of p)]

/-- The configuration wired onto the root logger by a successful call:
logger level min_level, handler levels file_level and console_level, the
console formatter colorized iff console_color_on over the selected console
template, and the file formatter colorized iff file_color_on over the verbose
template. -/
def success_config (now : DateTime) (p : InitParams) : RootLoggerConfig :=
  { logger_level := p.min_level
    file_handler_level := p.file_level
    console_handler_level := p.console_level
    file_formatter :=
      if p.file_color_on then Formatter.custom default_prepend_info date_format
      else Formatter.plain default_prepend_info date_format
    console_formatter :=
      if p.console_color_on then Formatter.custom (console_log_format p) date_format
      else Formatter.plain (console_log_format p) date_format
    log_file_path := log_file_path_of now p }

/-- init_root_logger.  Input: the process-wide initialized flag, the
file-system outcome, the current instant and the parameters.  Output: the
result (the wired configuration, or the exception raised), the new value of
the initialized flag, and the list of file-system effects performed.  The
source raises RuntimeError at once when already initialized; otherwise it
creates the missing directory (OSError propagates on failure), opens the log
file with mode w and encoding utf-8 (OSError propagates on failure), wires
both handlers, and only then sets the initialized flag. -/
def init_root_logger (initialized : Bool) (fs : FsState) (now : DateTime)
    (p : InitParams) : Except PyError RootLoggerConfig × Bool × List FsEffect :=
  if initialized then
    (Except.error (PyError.runtimeError "LogZilla already initialized."), initialized, [])
  else if !fs.dir_exists && !fs.mkdir_ok then
    (Except.error (PyError.oserror "mkdir failed"), false,
     [FsEffect.mkdir (log_file_dir_of p)])
  else if !fs.open_ok then
    (Except.error (PyError.oserror "FileHandler open failed"), false, dir_effects fs p)
  else
    (Except.ok (success_config now p), true,
     dir_effects fs p ++ [FsEffect.openFile (log_file_path_of now p) "w" "utf-8"])

/-- log_title: three records at INFO level, a full-width rule, the title
padded with one space on each side and centered to the width with the fill
character, and another full-width rule. -/
def log_title (title : String) (fill_char : Char) (width : Nat) : List LogRecord :=
  [⟨logging.INFO, repeatChar fill_char width⟩,
   ⟨logging.INFO, py_center (" " ++ title ++ " ") width fill_char⟩,
   ⟨logging.INFO, repeatChar fill_char width⟩]

/-- log_execution_time: the wrapper runs the wrapped callable; when it
returns a value, one record at log_level reporting the elapsed time is
emitted and the value is returned unchanged; when it raises, the exception
propagates and no record is emitted.  The callable is modelled as a function
into Except, t0 and t1 are the wall-clock readings in seconds around the
call. -/
def log_execution_time {α β ε : Type} (func : α → Except ε β) (func_name : String)
    (log_level : Nat) (t0 t1 : Nat) (a : α) : Except ε β × List LogRecord :=
  match func a with
  | Except.ok rv =>
      (Except.ok rv,
       [⟨log_level,
         "Execution Time of <" ++ func_name ++ ">: " ++ timedelta_str (t1 - t0) ++
           " hh:mm::ss"⟩])
  | Except.error e => (Except.error e, [])

end LogZilla

/-! ## Emission model for the level filtering of the logging runtime -/

/-- Modelled from the spec: the level filtering of the underlying logging
runtime, which is not part of this repository.  A record is emitted on the
console sink iff its severity is at least the global logger level and at
least the console handler level. -/
def emitted_on_console (cfg : RootLoggerConfig) (levelno : Nat) : Bool :=
  decide (cfg.logger_level ≤ levelno) && decide (cfg.console_handler_level ≤ levelno)

/-- Modelled from the spec: a record is emitted on the file sink iff its
severity is at least the global logger level and at least the file handler
level. -/
def emitted_on_file (cfg : RootLoggerConfig) (levelno : Nat) : Bool :=
  decide (cfg.logger_level ≤ levelno) && decide (cfg.file_handler_level ≤ levelno)

/-- Modelled from the spec, for comparison with the source template: the
ordering the spec asserts, that the level name occurs before the file name
segment in a template. -/
def spec_levelname_before_source (tmpl : String) : Bool :=
  match substrPos tmpl "%(levelname)s", substrPos tmpl "%(filename)s" with
  | some i, some j => decide (i < j)
  | _, _ => false

/-! ## Helper lemmas -/

theorem repeatChar_length (c : Char) (n : Nat) : (repeatChar c n).length = n := by
  show (List.replicate n c).length = n
  exact List.length_replicate n c

/-! ## Claims -/

/-- Claim C5: the colorizing formatter is a pure function of severity and
base template: DEBUG, INFO, WARNING, ERROR and CRITICAL map to the template
prefixed with the cyan, green, yellow, red and bold red ANSI escapes
respectively and suffixed with the ANSI reset code, while the uncolored
templates contain no ANSI escape character at all. -/
theorem c5_colorizer (fmt : String) :
    CustomFormatter.FORMATS fmt logging.DEBUG =
        some (CustomFormatter.cyan ++ fmt ++ CustomFormatter.reset) ∧
    CustomFormatter.FORMATS fmt logging.INFO =
        some (CustomFormatter.green ++ fmt ++ CustomFormatter.reset) ∧
    CustomFormatter.FORMATS fmt logging.WARNING =
        some (CustomFormatter.yellow ++ fmt ++ CustomFormatter.reset) ∧
    CustomFormatter.FORMATS fmt logging.ERROR =
        some (CustomFormatter.red ++ fmt ++ CustomFormatter.reset) ∧
    CustomFormatter.FORMATS fmt logging.CRITICAL =
        some (CustomFormatter.bold_red ++ fmt ++ CustomFormatter.reset) ∧
    containsSubstr LogZilla.default_prepend_info "\x1b" = false ∧
    containsSubstr LogZilla.simple_prepend_info "\x1b" = false :=
  ⟨rfl, rfl, rfl, rfl, rfl, by decide, by decide⟩

/-- Claim C2, counterexample: in the default template of the source the level
name does not occur before the file name segment, so the ordering asserted by
the spec fails on the concrete default template. -/
theorem c2_counterexample :
    spec_levelname_before_source LogZilla.default_prepend_info = false := by decide

/-- Claim C2, amended: the default template orders the segments as timestamp,
file name and line number, level name, message, so the level name occurs
after, not before, the source location; the simple template has level name
right after the timestamp and no source location at all; the timestamp
pattern is %Y/%m/%d %H:%M:%S. -/
theorem c2_format_order :
    substrPos LogZilla.default_prepend_info "%(asctime)s" = some 0 ∧
    substrPos LogZilla.default_prepend_info "%(filename)s:%(lineno)s" = some 13 ∧
    substrPos LogZilla.default_prepend_info "%(levelname)s" = some 38 ∧
    substrPos LogZilla.default_prepend_info "%(message)s" = some 53 ∧
    substrPos LogZilla.simple_prepend_info "%(levelname)s" = some 13 ∧
    containsSubstr LogZilla.simple_prepend_info "%(filename)s" = false ∧
    containsSubstr LogZilla.simple_prepend_info "%(lineno)s" = false ∧
    LogZilla.date_format = "%Y/%m/%d %H:%M:%S" := by decide

/-- Claim C10: every attempt to construct a LogZilla instance raises a
RuntimeError, so the type is usable only through its class methods and no
instance value exists. -/
theorem c10_no_instantiation (u : Unit) :
    LogZilla.instantiate u = Except.error (PyError.runtimeError LogZilla.instantiate_msg) :=
  rfl

/-- Fixture: a file system where the log directory exists and the open
succeeds. -/
def fs0 : FsState := ⟨true, true, true⟩

/-- Fixture: a file system where opening the log file fails. -/
def fsOpenFail : FsState := ⟨true, true, false⟩

/-- Fixture: an instant. -/
def now0 : DateTime := ⟨2024, 1, 2, 3, 4, 5⟩

/-- Fixture: parameters with an explicit file name suffix, verbose console
output, color on console only. -/
def p0 : LogZilla.InitParams :=
  ⟨"/tmp/x", "app", "main", 10, 20, 20, true, false, false⟩

/-- Fixture: like p0 but with no_console_file_info set. -/
def p1 : LogZilla.InitParams :=
  ⟨"/tmp/x", "app", "main", 10, 20, 20, true, false, true⟩

/-- Helper: with the directory available or creatable and the file openable,
a call from the uninitialized state takes the success branch. -/
theorem init_root_logger_success (fs : FsState) (now : DateTime)
    (p : LogZilla.InitParams)
    (hdir : fs.dir_exists = true ∨ fs.mkdir_ok = true) (hopen : fs.open_ok = true) :
    LogZilla.init_root_logger false fs now p =
      (Except.ok (LogZilla.success_config now p), true,
       LogZilla.dir_effects fs p ++
         [FsEffect.openFile (LogZilla.log_file_path_of now p) "w" "utf-8"]) := by
  have hcond : (!fs.dir_exists && !fs.mkdir_ok) = false := by
    rcases hdir with h | h <;> simp [h]
  simp [LogZilla.init_root_logger, hcond, hopen]

/-- Claim C1: in a state where the logger is not yet initialized, a call
whose file-system operations succeed returns the wired configuration and
sets the process-wide flag; and once the flag is set every further call, for
any parameters, raises the RuntimeError about double initialization and
changes nothing. -/
theorem c1_init_once (fs : FsState) (now : DateTime) (p : LogZilla.InitParams)
    (hdir : fs.dir_exists = true ∨ fs.mkdir_ok = true) (hopen : fs.open_ok = true) :
    LogZilla.init_root_logger false fs now p =
      (Except.ok (LogZilla.success_config now p), true,
       LogZilla.dir_effects fs p ++
         [FsEffect.openFile (LogZilla.log_file_path_of now p) "w" "utf-8"]) ∧
    ∀ (fs2 : FsState) (now2 : DateTime) (p2 : LogZilla.InitParams),
      LogZilla.init_root_logger true fs2 now2 p2 =
        (Except.error (PyError.runtimeError "LogZilla already initialized."), true, []) := by
  refine ⟨init_root_logger_success fs now p hdir hopen, ?_⟩
  intro fs2 now2 p2
  simp [LogZilla.init_root_logger]

/-- Witness for C1 at concrete input: the first call sets the flag. -/
theorem c1_witness : (LogZilla.init_root_logger false fs0 now0 p0).2.1 = true := by
  rw [(c1_init_once fs0 now0 p0 (Or.inl rfl) rfl).1]

/-- Claim C9: initialization is atomic with respect to the flag: starting
from the uninitialized state the flag comes out true exactly when the call
returned the wired configuration, and a call from the uninitialized state
never fails with the double-initialization RuntimeError, so a retry after a
file-system failure is not rejected as already initialized. -/
theorem c9_atomic_flag (fs : FsState) (now : DateTime) (p : LogZilla.InitParams) :
    ((LogZilla.init_root_logger false fs now p).2.1 = true ↔
      ∃ cfg, (LogZilla.init_root_logger false fs now p).1 = Except.ok cfg) ∧
    (LogZilla.init_root_logger false fs now p).1 ≠
      Except.error (PyError.runtimeError "LogZilla already initialized.") := by
  obtain ⟨de, mk, op⟩ := fs
  cases de <;> cases mk <;> cases op <;>
    simp [LogZilla.init_root_logger]

/-- Helper: the configuration a successful call returns is always
success_config. -/
theorem init_ok_config (fs : FsState) (now : DateTime) (p : LogZilla.InitParams)
    (cfg : RootLoggerConfig) (b : Bool) (eff : List FsEffect)
    (h : LogZilla.init_root_logger false fs now p = (Except.ok cfg, b, eff)) :
    cfg = LogZilla.success_config now p := by
  obtain ⟨de, mk, op⟩ := fs
  cases de <;> cases mk <;> cases op <;> simp_all [LogZilla.init_root_logger]

/-- Helper: the base template of the console formatter is the selected
console format, colorized or not. -/
theorem success_config_console_fmt (now : DateTime) (p : LogZilla.InitParams) :
    (LogZilla.success_config now p).console_formatter.fmt = LogZilla.console_log_format p := by
  cases h : p.console_color_on <;> simp [LogZilla.success_config, Formatter.fmt, h]

/-- Helper: the base template of the file formatter is always the verbose
default, colorized or not. -/
theorem success_config_file_fmt (now : DateTime) (p : LogZilla.InitParams) :
    (LogZilla.success_config now p).file_formatter.fmt = LogZilla.default_prepend_info := by
  cases h : p.file_color_on <;> simp [LogZilla.success_config, Formatter.fmt, h]

/-- Claim C3: for every successful initialization, when no_console_file_info
is set the console base template is the simple one, which holds no file name
and no line number segment; and the file base template is always the verbose
one holding the file name and line number segment, whatever the other
parameters are. -/
theorem c3_sink_templates (fs : FsState) (now : DateTime) (p : LogZilla.InitParams)
    (cfg : RootLoggerConfig) (b : Bool) (eff : List FsEffect)
    (h : LogZilla.init_root_logger false fs now p = (Except.ok cfg, b, eff)) :
    (p.no_console_file_info = true →
       cfg.console_formatter.fmt = LogZilla.simple_prepend_info ∧
       containsSubstr cfg.console_formatter.fmt "%(filename)s" = false ∧
       containsSubstr cfg.console_formatter.fmt "%(lineno)s" = false) ∧
    cfg.file_formatter.fmt = LogZilla.default_prepend_info ∧
    containsSubstr cfg.file_formatter.fmt "%(filename)s:%(lineno)s" = true := by
  have hc := init_ok_config fs now p cfg b eff h
  subst hc
  refine ⟨fun hno => ?_, ?_, ?_⟩
  · have hsel : LogZilla.console_log_format p = LogZilla.simple_prepend_info := by
      simp [LogZilla.console_log_format, hno]
    rw [success_config_console_fmt, hsel]
    exact ⟨rfl, by decide, by decide⟩
  · exact success_config_file_fmt now p
  · rw [success_config_file_fmt]
    decide

/-- Witness for C3 at concrete input: with no_console_file_info set, the
console template of the wired configuration is the simple one. -/
theorem c3_witness :
    (LogZilla.success_config now0 p1).console_formatter.fmt = LogZilla.simple_prepend_info :=
  ((c3_sink_templates fs0 now0 p1 (LogZilla.success_config now0 p1) true
      ((LogZilla.init_root_logger false fs0 now0 p1).2.2) rfl).1 rfl).1

/-- Claim C4: after a successful initialization, a record strictly below the
console handler level is never emitted on the console sink, whatever the
global and file levels say; and a record strictly below the global minimum is
emitted on no sink at all. -/
theorem c4_level_filtering (fs : FsState) (now : DateTime) (p : LogZilla.InitParams)
    (cfg : RootLoggerConfig) (b : Bool) (eff : List FsEffect) (lvl : Nat)
    (h : LogZilla.init_root_logger false fs now p = (Except.ok cfg, b, eff)) :
    (lvl < p.console_level → emitted_on_console cfg lvl = false) ∧
    (lvl < p.min_level →
       emitted_on_console cfg lvl = false ∧ emitted_on_file cfg lvl = false) := by
  have hc := init_ok_config fs now p cfg b eff h
  subst hc
  constructor
  · intro hlt
    simp only [emitted_on_console, LogZilla.success_config, Bool.and_eq_false_iff,
      decide_eq_false_iff_not]
    omega
  · intro hlt
    constructor <;>
      simp only [emitted_on_console, emitted_on_file, LogZilla.success_config,
        Bool.and_eq_false_iff, decide_eq_false_iff_not] <;>
      omega

/-- Witness for C4 at concrete input: a level 15 record with console level 20
is not emitted on the console. -/
theorem c4_witness : emitted_on_console (LogZilla.success_config now0 p0) 15 = false :=
  (c4_level_filtering fs0 now0 p0 (LogZilla.success_config now0 p0) true
      ((LogZilla.init_root_logger false fs0 now0 p0).2.2) 15 rfl).1 (by decide)

/-- Claim C6: for every output directory and suffix, a successful call makes
the directory output_dir/.log exactly when it is missing and opens the log
file named by the strftime pattern over the call instant inside it with mode
w (truncating) and encoding utf-8. -/
theorem c6_log_file (fs : FsState) (now : DateTime) (p : LogZilla.InitParams)
    (hdir : fs.dir_exists = true ∨ fs.mkdir_ok = true) (hopen : fs.open_ok = true) :
    (LogZilla.init_root_logger false fs now p).1 =
      Except.ok (LogZilla.success_config now p) ∧
    (LogZilla.success_config now p).log_file_path =
      LogZilla.log_file_dir_of p ++ "/" ++
        LogZilla.strftime_file_name now (LogZilla.effective_append p) ∧
    LogZilla.log_file_dir_of p = p.output_dir ++ "/" ++ ".log" ∧
    (LogZilla.init_root_logger false fs now p).2.2 =
      (if fs.dir_exists then ([] : List FsEffect)
       else [FsEffect.mkdir (LogZilla.log_file_dir_of p)]) ++
      [FsEffect.openFile ((LogZilla.success_config now p).log_file_path) "w" "utf-8"] := by
  have hs := init_root_logger_success fs now p hdir hopen
  refine ⟨?_, rfl, rfl, ?_⟩
  · rw [hs]
  · rw [hs]
    simp [LogZilla.dir_effects, LogZilla.success_config]

/-- Witness for C6 at concrete input: the opened path for output directory
/tmp/x, suffix app and instant 2024-01-02 03:04:05. -/
theorem c6_witness :
    (LogZilla.success_config now0 p0).log_file_path =
      "/tmp/x/.log/2024.01.02_03.04.05_app.log" := by
  rw [(c6_log_file fs0 now0 p0 (Or.inl rfl) rfl).2.1]
  decide

/-- Claim C7: on arguments where the wrapped callable returns a value, the
wrapper returns that exact value and emits one elapsed-time record at the
configured level whose message carries the duration in the
hours:minutes:seconds rendering; on arguments where the callable raises, the
wrapper propagates the same exception and emits no record. -/
theorem c7_execution_time {α β ε : Type} (func : α → Except ε β) (func_name : String)
    (log_level t0 t1 : Nat) (a : α) :
    (∀ rv, func a = Except.ok rv →
        LogZilla.log_execution_time func func_name log_level t0 t1 a =
          (Except.ok rv,
           [⟨log_level,
             "Execution Time of <" ++ func_name ++ ">: " ++ timedelta_str (t1 - t0) ++
               " hh:mm::ss"⟩])) ∧
    (∀ e, func a = Except.error e →
        LogZilla.log_execution_time func func_name log_level t0 t1 a =
          (Except.error e, [])) := by
  constructor <;> intro x hx <;> simp [LogZilla.log_execution_time, hx]

/-- Witness for C7 at concrete input: a successful call of one hour, two
minutes and five seconds produces the value and exactly one timing record. -/
theorem c7_witness :
    (LogZilla.log_execution_time (fun n : Nat => (Except.ok (n + 1) : Except String Nat))
        "f" 20 0 3725 1).2 =
      [⟨20, "Execution Time of <f>: 1:02:05 hh:mm::ss"⟩] := by
  rw [(c7_execution_time (fun n : Nat => (Except.ok (n + 1) : Except String Nat))
      "f" 20 0 3725 1).1 2 rfl]
  decide

/-- The left padding width chosen by the center method of Python str. -/
def py_center_left (s : String) (width : Nat) : Nat :=
  (width - s.length) / 2 +
    (if (width - s.length) % 2 = 1 ∧ width % 2 = 1 then 1 else 0)

/-- Helper: in the padding case the center method splits the margin into the
left share and the rest. -/
theorem py_center_eq (s : String) (width : Nat) (fill : Char) (h : s.length < width) :
    py_center s width fill =
      repeatChar fill (py_center_left s width) ++ s ++
        repeatChar fill ((width - s.length) - py_center_left s width) := by
  unfold py_center py_center_left
  rw [if_neg (by omega)]

/-- Helper: the left share never exceeds the margin. -/
theorem py_center_left_le (s : String) (width : Nat) :
    py_center_left s width ≤ width - s.length := by
  unfold py_center_left
  split <;> omega

/-- Helper: the two shares of the margin differ by at most one. -/
theorem py_center_left_balance (s : String) (width : Nat) :
    py_center_left s width ≤ ((width - s.length) - py_center_left s width) + 1 ∧
    ((width - s.length) - py_center_left s width) ≤ py_center_left s width + 1 := by
  unfold py_center_left
  constructor <;> split <;> omega

/-- Helper: centering a string that fits in the width yields exactly the
width. -/
theorem py_center_length (s : String) (width : Nat) (fill : Char)
    (h : s.length ≤ width) : (py_center s width fill).length = width := by
  rcases Nat.lt_or_ge s.length width with hlt | hge
  · rw [py_center_eq s width fill hlt]
    have hle := py_center_left_le s width
    simp only [String.length_append, repeatChar_length]
    omega
  · unfold py_center
    rw [if_pos hge]
    omega

/-- Claim C8: for every title, single fill character and width at least the
length of the space-padded title, log_title emits exactly three records of
exactly the given width: a full-width rule of the fill character, the padded
title centered between two nearly equal runs of the fill character, and
another full-width rule. -/
theorem c8_log_title (title : String) (fill : Char) (width : Nat)
    (h : (" " ++ title ++ " ").length ≤ width) :
    ∃ l r,
      l + (" " ++ title ++ " ").length + r = width ∧
      l ≤ r + 1 ∧ r ≤ l + 1 ∧
      LogZilla.log_title title fill width =
        [⟨logging.INFO, repeatChar fill width⟩,
         ⟨logging.INFO, repeatChar fill l ++ (" " ++ title ++ " ") ++ repeatChar fill r⟩,
         ⟨logging.INFO, repeatChar fill width⟩] ∧
      ∀ rec ∈ LogZilla.log_title title fill width, rec.msg.length = width := by
  have hlen : ∀ rec ∈ LogZilla.log_title title fill width, rec.msg.length = width := by
    intro rec hrec
    simp only [LogZilla.log_title, List.mem_cons, List.not_mem_nil, or_false] at hrec
    rcases hrec with hcase | hcase | hcase <;> subst hcase <;>
      first
        | exact repeatChar_length fill width
        | exact py_center_length (" " ++ title ++ " ") width fill h
  rcases Nat.lt_or_ge (" " ++ title ++ " ").length width with hlt | hge
  · refine ⟨py_center_left (" " ++ title ++ " ") width,
      (width - (" " ++ title ++ " ").length) -
        py_center_left (" " ++ title ++ " ") width, ?_, ?_, ?_, ?_, hlen⟩
    · have hle := py_center_left_le (" " ++ title ++ " ") width
      omega
    · exact (py_center_left_balance (" " ++ title ++ " ") width).1
    · exact (py_center_left_balance (" " ++ title ++ " ") width).2
    · simp only [LogZilla.log_title]
      rw [py_center_eq (" " ++ title ++ " ") width fill hlt]
  · have heq : (" " ++ title ++ " ").length = width := Nat.le_antisymm h hge
    refine ⟨0, 0, by omega, by omega, by omega, ?_, hlen⟩
    simp only [LogZilla.log_title]
    have h0 : repeatChar fill 0 = "" := rfl
    rw [h0, String.empty_append, String.append_empty]
    unfold py_center
    rw [if_pos hge]

/-- Witness for C8 at concrete input: log_title of the title X with fill
character number sign and width ten gives three ten-character lines with the
padded title centered in the middle one. -/
theorem c8_witness :
    LogZilla.log_title "X" '#' 10 =
      [⟨logging.INFO, "##########"⟩, ⟨logging.INFO, "### X ####"⟩,
       ⟨logging.INFO, "##########"⟩] := by
  obtain ⟨l, r, hsum, hbal1, hbal2, heq, hlens⟩ := c8_log_title "X" '#' 10 (by decide)
  decide
